import Mathlib

/-!
Shallow embedding of the Weather-and-NDVI aggregation service (src/api.py)
and proofs of its specified properties.

Modelling conventions:
* JSON values arriving in the request body are modelled by the inductive
  type `JVal`; Python distinguishes `int` from `float` at runtime
  (`isinstance(x, float)`), so the embedding keeps separate `jint` and
  `jfloat` constructors.  Python floats are modelled as exact rationals.
* The two external providers (Open-Meteo over HTTP, and the Earth-Engine
  imagery platform) are oracles passed as function arguments; the embedding
  records the exact query each stage sends to its provider.
* Python exceptions are modelled with `Except String`; each reducer wraps
  its computation and converts an error into the single prefixed message the
  source appends in its `except` block.  Messages that in Python contain
  quote characters are rendered here without them.
-/

/-- A JSON value as delivered by Flask `request.json`.  `jnull` stands for
Python `None` (also the result of `.get` on a missing key). -/
inductive JVal where
  | jnull : JVal
  | jbool : Bool → JVal
  | jint : Int → JVal
  | jfloat : ℚ → JVal
  | jstr : String → JVal
  | jlist : List JVal → JVal

/-- `isinstance(x, float)` for a JSON value (Python `bool`/`int` are not
`float`). -/
def JVal.isFloat : JVal → Bool
  | .jfloat _ => true
  | _ => false

/-- Gregorian leap-year rule, as used by `datetime`. -/
def isLeap (y : Nat) : Bool :=
  (y % 4 == 0 && y % 100 != 0) || (y % 400 == 0)

/-- Number of days in month `m` of year `y` (as validated by
`datetime(year, month, day)`). -/
def daysInMonth (y m : Nat) : Nat :=
  if m = 2 then (if isLeap y then 29 else 28)
  else if m = 4 ∨ m = 6 ∨ m = 9 ∨ m = 11 then 30
  else 31

/-- Split a character list at every dash (the semantics of
`"...".split("-")`: `"a--b"` gives `["a", "", "b"]`, `""` gives `[""]`). -/
def splitDashes : List Char → List (List Char)
  | [] => [[]]
  | c :: rest =>
    match splitDashes rest, decide (c = '-') with
    | r, true => [] :: r
    | g :: gs, false => (c :: g) :: gs
    | [], false => [[c]]

/-- A non-empty all-digit group and its numeric value, else `none`. -/
def digitGroup : List Char → Option Nat
  | l =>
    if l ≠ [] && l.all (fun c => c.isDigit) then
      some (l.foldl (fun acc c => acc * 10 + (c.toNat - 48)) 0)
    else none

/-- `datetime.strptime(s, "%Y-%m-%d")` succeeds: exactly three dash-separated
digit groups, the year group exactly 4 digits with year at least 1, month and
day groups 1 or 2 digits, month 1..12, day valid for that month and year. -/
def validDateYMD (s : String) : Bool :=
  match splitDashes s.data with
  | [ys, ms, ds] =>
    match digitGroup ys, digitGroup ms, digitGroup ds with
    | some y, some m, some d =>
      ys.length == 4 && decide (ms.length ≤ 2) && decide (ds.length ≤ 2) &&
      decide (1 ≤ y) && decide (1 ≤ m ∧ m ≤ 12) &&
      decide (1 ≤ d ∧ d ≤ daysInMonth y m)
    | _, _, _ => false
  | _ => false

/-- Source message (api.py line 26).  Quote characters of the original
messages are omitted throughout. -/
def coordsErrMsg : String := "Coordinates must be a list with at least 4 points."

/-- Source message (api.py line 31), for 1-based point index `i`. -/
def notTwoElemsMsg (i : Nat) : String :=
  "Point " ++ toString i ++ " is not a list of two elements."

/-- Source message (api.py line 35), for 1-based point index `i`. -/
def notFloatsMsg (i : Nat) : String :=
  "Point " ++ toString i ++ " must contain two floats (lon, lat)."

/-- Source message (api.py line 40). -/
def dateErrMsg : String := "Date must be a valid string in YYYY-MM-DD format."

/-- Errors contributed by one point of the coordinate list (api.py lines
29-35); `i` is the 1-based index used in the messages. -/
def pointErrs (i : Nat) (p : JVal) : List String :=
  match p with
  | .jlist [lon, lat] =>
    if lon.isFloat && lat.isFloat then [] else [notFloatsMsg i]
  | _ => [notTwoElemsMsg i]

/-- Errors of all points, enumerating from 1-based index `i` (the
`for i, point in enumerate(coordinates)` loop). -/
def listPointErrs : Nat → List JVal → List String
  | _, [] => []
  | i, p :: rest => pointErrs i p ++ listPointErrs (i + 1) rest

/-- Errors contributed by the `date` field (api.py lines 37-40): `strptime`
raises `TypeError` on a non-string and `ValueError` on a malformed string. -/
def dateErrs (date : JVal) : List String :=
  match date with
  | .jstr s => if validDateYMD s then [] else [dateErrMsg]
  | _ => [dateErrMsg]

/-- `validate_request` (api.py lines 12-44), applied to the two request-body
fields.  The outer `except` of the source can only fire when the body is not
a JSON mapping at all, which the `JVal` model rules out. -/
def validate_request (coordinates date : JVal) : List String :=
  (match coordinates with
   | .jlist pts =>
     if pts.length < 4 then [coordsErrMsg] else listPointErrs 1 pts
   | _ => [coordsErrMsg]) ++ dateErrs date

/-- A point the validator accepts: a 2-element list of two floats. -/
def acceptedPoint (p : JVal) : Bool :=
  match p with
  | .jlist [a, b] => a.isFloat && b.isFloat
  | _ => false

/-- A date the validator accepts: a string parsing as YYYY-MM-DD. -/
def dateAccepted (d : JVal) : Bool :=
  match d with
  | .jstr s => validDateYMD s
  | _ => false

/-- A request the specification accepts: coordinates is a list of at least 4
points, every point is a 2-element list of two floats, and the date parses.
This is the spec-side acceptance predicate compared against
`validate_request` in claim C3. -/
def requestAccepted (coordinates date : JVal) : Bool :=
  (match coordinates with
   | .jlist pts => decide (4 ≤ pts.length) && pts.all acceptedPoint
   | _ => false) && dateAccepted date

/-- Result shape `{"data": {...}, "errors": [...]}` returned by both
reducers; the data mapping is an association list in insertion order. -/
structure FetchResult where
  data : List (String × ℚ)
  errors : List String
deriving DecidableEq

/-- The query `get_open_meteo_weather` sends to the Open-Meteo API (the URL
of api.py lines 60-65): its first positional argument fills the `latitude`
parameter and its second the `longitude` parameter. -/
structure WeatherQuery where
  latitude : ℚ
  longitude : ℚ
  startTime : String
  endTime : String
deriving DecidableEq

/-- URL construction of api.py lines 60-65. -/
def weatherQueryOf (lat lon : ℚ) (date : String) : WeatherQuery :=
  ⟨lat, lon, date ++ "T00:00:00Z", date ++ "T23:59:59Z"⟩

/-- The `hourly` object of an Open-Meteo JSON response: each requested
series may be present or absent. -/
structure Hourly where
  temperature_2m : Option (List ℚ)
  relativehumidity_2m : Option (List ℚ)
  wind_speed_10m : Option (List ℚ)
  et0_fao_evapotranspiration : Option (List ℚ)
deriving DecidableEq

/-- Body of an HTTP response from the weather provider: JSON decoding may
fail, the decoded object may lack the `hourly` key, or carry one. -/
inductive WBody where
  | badJson (msg : String)
  | noHourly
  | hourly (h : Hourly)
deriving DecidableEq

/-- Outcome of `requests.get` on the weather URL: the call itself may raise,
or return a status code, body text and JSON body. -/
inductive WProviderResult where
  | transportError (msg : String)
  | response (status_code : Nat) (text : String) (body : WBody)
deriving DecidableEq

/-- The reduction of api.py lines 79-98 on a decoded `hourly` object.
Python reads the three required series in order (`hourly_data[k]` raises
`KeyError(k)` — whose `str` is the key name — at the first missing one),
takes the first 24 entries of each (24 zeros replacing a missing ET0
series), then computes means of temperature, humidity and wind speed and
the sum of ET0.  A zero-length series makes Python raise
`ZeroDivisionError` at the corresponding division, modelled by the explicit
length tests. -/
def weatherCompute (h : Hourly) : Except String (List (String × ℚ)) :=
  match h.temperature_2m, h.relativehumidity_2m, h.wind_speed_10m with
  | none, _, _ => .error "temperature_2m"
  | some _, none, _ => .error "relativehumidity_2m"
  | some _, some _, none => .error "wind_speed_10m"
  | some ts, some hs, some ws =>
    let temperature := ts.take 24
    let humidity := hs.take 24
    let wind_speed := ws.take 24
    let et0 := (h.et0_fao_evapotranspiration.getD (List.replicate 24 (0 : ℚ))).take 24
    if temperature.length = 0 then .error "division by zero" else
    if humidity.length = 0 then .error "division by zero" else
    if wind_speed.length = 0 then .error "division by zero" else
    .ok [("mean_temperature_2m_C", temperature.sum / (temperature.length : ℚ)),
         ("mean_humidity_2m_%", humidity.sum / (humidity.length : ℚ)),
         ("mean_wind_speed_10m_m_s", wind_speed.sum / (wind_speed.length : ℚ)),
         ("sum_et0_mm", et0.sum)]

/-- Handling of one transport outcome inside the `try` body of
`get_open_meteo_weather` (api.py lines 68-100): fail on a transport
exception, on a non-200 status (the raised `Exception` carries the response
text), on a JSON decode error or a missing `hourly` key, and otherwise
reduce the hourly data. -/
def weatherHandle : WProviderResult → Except String (List (String × ℚ))
  | .transportError msg => .error msg
  | .response status_code text body =>
    if status_code ≠ 200 then .error ("Failed to fetch data: " ++ text)
    else
      match body with
      | .badJson msg => .error msg
      | .noHourly => .error "hourly"
      | .hourly h => weatherCompute h

/-- The whole `try` body of `get_open_meteo_weather` (api.py lines 59-100):
build the query, send it, handle the outcome. -/
def weatherTry (lat lon : ℚ) (date : String)
    (provider : WeatherQuery → WProviderResult) :
    Except String (List (String × ℚ)) :=
  weatherHandle (provider (weatherQueryOf lat lon date))

/-- The transport outcomes that make the `try` body of
`get_open_meteo_weather` raise before any mean is computed: a transport
exception, a non-200 status, an undecodable JSON body, or a response
lacking the `hourly` object or one of the three required series. -/
def weatherFailureCase : WProviderResult → Prop
  | .transportError _ => True
  | .response status_code _ body =>
    status_code ≠ 200 ∨
    match body with
    | .badJson _ => True
    | .noHourly => True
    | .hourly h =>
      h.temperature_2m = none ∨ h.relativehumidity_2m = none ∨
      h.wind_speed_10m = none

/-- `get_open_meteo_weather` (api.py lines 48-105): the `try` body above,
with any exception converted by the `except` block into the single error
message prefixed by the function name, alongside the untouched empty data
mapping. -/
def get_open_meteo_weather (lat lon : ℚ) (date : String)
    (provider : WeatherQuery → WProviderResult) : FetchResult :=
  match weatherTry lat lon date provider with
  | .ok d => ⟨d, []⟩
  | .error e => ⟨[], ["get_open_meteo_weather: " ++ e]⟩

/-- An `ee.Date` expression: a base date string with an accumulated
`advance(n, day)` offset in days. -/
structure EEDate where
  base : String
  offsetDays : Int
deriving DecidableEq

/-- `ee.Date(s)`. -/
def eeDate (s : String) : EEDate := ⟨s, 0⟩

/-- `d.advance(n, day)`. -/
def EEDate.advance (d : EEDate) (n : Int) : EEDate := ⟨d.base, d.offsetDays + n⟩

/-- A Sentinel-2 scene as far as the embedded code observes it: its
`CLOUDY_PIXEL_PERCENTAGE` metadata plus an identity. -/
structure Scene where
  cloudyPixelPercentage : ℚ
  sceneId : Nat
deriving DecidableEq

/-- The filter `get_ndvi_data` sends to the imagery provider (api.py lines
124-133): the polygon geometry and the date window. -/
structure ImageryQuery where
  polygon : List (ℚ × ℚ)
  startDate : EEDate
  endDate : EEDate
deriving DecidableEq

/-- Query construction of api.py lines 124-133: window from one day before
to one day after the requested date, over the request polygon. -/
def ndviQuery (coordinates : List (ℚ × ℚ)) (date : String) : ImageryQuery :=
  ⟨coordinates, (eeDate date).advance (-1), (eeDate date).advance 1⟩

/-- Comparison used by `.sort(CLOUDY_PIXEL_PERCENTAGE)` (ascending). -/
def cloudLE (a b : Scene) : Bool :=
  decide (a.cloudyPixelPercentage ≤ b.cloudyPixelPercentage)

/-- Error message reported when the filtered collection is empty: `.first()`
yields no image and the NDVI computation on it fails server-side when
`getInfo()` forces it; the exact provider message is treated as a constant here. -/
def emptyCollectionMsg : String :=
  "Image.normalizedDifference: Parameter input is required."

/-- `get_ndvi_data` (api.py lines 109-156).  The imagery provider is the
oracle `provider`, returning the scenes matching a filter; `ndviMean` is the
provider-side NDVI mean computation over the polygon for the chosen scene
(`reduceRegion ... getInfo`), which may fail.  The code sorts the matching
scenes by ascending cloud cover and takes the first; with no scene, or a
failing reduction, the `except` block reports the single prefixed error. -/
def get_ndvi_data (coordinates : List (ℚ × ℚ)) (date : String)
    (provider : ImageryQuery → List Scene)
    (ndviMean : Scene → Except String ℚ) : FetchResult :=
  let scenes := provider (ndviQuery coordinates date)
  match (scenes.mergeSort cloudLE).head? with
  | none => ⟨[], ["get_ndvi_data: " ++ emptyCollectionMsg]⟩
  | some s =>
    match ndviMean s with
    | .error msg => ⟨[], ["get_ndvi_data: " ++ msg]⟩
    | .ok v => ⟨[("ndvi_mean", v)], []⟩

/-- `isinstance(x, float)` extraction used when `get_data` reads validated
values back out of the body. -/
def floatVal : JVal → Option ℚ
  | .jfloat q => some q
  | _ => none

/-- One coordinate pair, as `get_data` consumes it. -/
def pointVal : JVal → Option (ℚ × ℚ)
  | .jlist [a, b] =>
    match floatVal a, floatVal b with
    | some x, some y => some (x, y)
    | _, _ => none
  | _ => none

/-- All coordinate pairs of a point list, or `none` at the first point that
is not a float pair. -/
def coordsList : List JVal → Option (List (ℚ × ℚ))
  | [] => some []
  | p :: rest =>
    match pointVal p, coordsList rest with
    | some q, some qs => some (q :: qs)
    | _, _ => none

/-- The whole coordinate list, as `get_data` consumes it. -/
def coordsVal : JVal → Option (List (ℚ × ℚ))
  | .jlist pts => coordsList pts
  | _ => none

/-- The date string, as `get_data` consumes it. -/
def dateVal : JVal → Option String
  | .jstr s => some s
  | _ => none

/-- The three response shapes of the `/get_data` route: the 400
`{"errors": [...]}` body, the 400 `{"error": "..."}` body of the outer
`except`, and the 200 `{"status": "success", "data": {...}}` body. -/
inductive Resp where
  | errorsResp (errors : List String)
  | errorResp (error : String)
  | successResp (data : List (String × ℚ))
deriving DecidableEq

/-- A pipeline run: the response together with the queries actually issued
to the weather and imagery providers, in order. -/
structure PipelineResult where
  resp : Resp
  weatherCalls : List WeatherQuery
  ndviCalls : List ImageryQuery
deriving DecidableEq

/-- `str(IndexError)` raised by `coordinates[0]` on an empty list (dead once
validation has passed). -/
def indexErrMsg : String := "list index out of range"

/-- Placeholder message of the outer `except` for a body whose validated
fields cannot be re-extracted (dead once validation has passed). -/
def extractErrMsg : String := "get_data: malformed body"

/-- The `/get_data` route handler (api.py lines 160-199): validate, on any
error answer 400 with exactly the validation errors; otherwise fetch weather
for the first polygon point — note the source passes `coordinates[0][0]`
(the longitude) as the first positional argument — answering 400 with
exactly the weather errors if any; otherwise fetch NDVI for the full
polygon, answering 400 with exactly the NDVI errors if any; otherwise merge
both data mappings into the success body.  The trace fields record each
provider query issued. -/
def get_data (coordinates date : JVal)
    (wp : WeatherQuery → WProviderResult)
    (ip : ImageryQuery → List Scene)
    (nm : Scene → Except String ℚ) : PipelineResult :=
  if validate_request coordinates date = [] then
    match coordsVal coordinates, dateVal date with
    | some coords, some d =>
      match coords with
      | p :: _ =>
        let weather_data := get_open_meteo_weather p.1 p.2 d wp
        if weather_data.errors = [] then
          let ndvi_data := get_ndvi_data coords d ip nm
          if ndvi_data.errors = [] then
            ⟨.successResp (weather_data.data ++ ndvi_data.data),
             [weatherQueryOf p.1 p.2 d], [ndviQuery coords d]⟩
          else
            ⟨.errorsResp ndvi_data.errors,
             [weatherQueryOf p.1 p.2 d], [ndviQuery coords d]⟩
        else
          ⟨.errorsResp weather_data.errors, [weatherQueryOf p.1 p.2 d], []⟩
      | [] => ⟨.errorResp indexErrMsg, [], []⟩
    | _, _ => ⟨.errorResp extractErrMsg, [], []⟩
  else
    ⟨.errorsResp (validate_request coordinates date), [], []⟩

/-- A well-formed float point, e.g. `[10.0, 20.0]`. -/
def ptF (a b : ℚ) : JVal := .jlist [.jfloat a, .jfloat b]

/-- Sample valid coordinates body (the end-to-end scenario polygon). -/
def cSample : JVal := .jlist [ptF 10 20, ptF 10 21, ptF 11 21, ptF 11 20]

/-- Sample valid date body. -/
def dSample : JVal := .jstr "2024-06-01"

/-- A complete hourly object with one value per series. -/
def hourlyFull : Hourly := ⟨some [10], some [20], some [30], some [2]⟩

/-- Weather provider that always answers 200 with `hourlyFull`. -/
def wpOk : WeatherQuery → WProviderResult :=
  fun _ => .response 200 "" (.hourly hourlyFull)

/-- Weather provider that always answers an HTTP 500. -/
def wpBad : WeatherQuery → WProviderResult :=
  fun _ => .response 500 "internal error" (.badJson "x")

/-- Weather provider answering 200 with the ET0 series absent. -/
def wpNoEt0 : WeatherQuery → WProviderResult :=
  fun _ => .response 200 "" (.hourly ⟨some [10], some [20], some [30], none⟩)

/-- Weather provider answering 200 with all required series empty. -/
def wpEmptySeries : WeatherQuery → WProviderResult :=
  fun _ => .response 200 "" (.hourly ⟨some [], some [], some [], none⟩)

/-- Imagery provider returning one scene for every filter. -/
def ipOne : ImageryQuery → List Scene := fun _ => [⟨5, 1⟩]

/-- Imagery provider matching no scene for any filter. -/
def ipNone : ImageryQuery → List Scene := fun _ => []

/-- NDVI mean oracle that always succeeds with 1/2. -/
def nmOk : Scene → Except String ℚ := fun _ => .ok (1 / 2)

theorem pointErrs_nil_iff (i : Nat) (p : JVal) :
    pointErrs i p = [] ↔ acceptedPoint p = true := by
  cases p with
  | jlist pts =>
    rcases pts with _ | ⟨a, _ | ⟨b, _ | ⟨c, rest⟩⟩⟩
    · simp [pointErrs, acceptedPoint]
    · simp [pointErrs, acceptedPoint]
    · by_cases hf : (a.isFloat && b.isFloat) = true <;>
        simp [pointErrs, acceptedPoint, hf]
    · simp [pointErrs, acceptedPoint]
  | jnull => simp [pointErrs, acceptedPoint]
  | jbool b => simp [pointErrs, acceptedPoint]
  | jint n => simp [pointErrs, acceptedPoint]
  | jfloat q => simp [pointErrs, acceptedPoint]
  | jstr s => simp [pointErrs, acceptedPoint]

theorem listPointErrs_nil_iff (pts : List JVal) (i : Nat) :
    listPointErrs i pts = [] ↔ pts.all acceptedPoint = true := by
  induction pts generalizing i with
  | nil => simp [listPointErrs]
  | cons p rest ih =>
    simp [listPointErrs, List.all_cons, pointErrs_nil_iff, ih]

theorem dateErrs_nil_iff (d : JVal) :
    dateErrs d = [] ↔ dateAccepted d = true := by
  cases d with
  | jstr s =>
    by_cases hv : validDateYMD s = true <;> simp [dateErrs, dateAccepted, hv]
  | jnull => simp [dateErrs, dateAccepted]
  | jbool b => simp [dateErrs, dateAccepted]
  | jint n => simp [dateErrs, dateAccepted]
  | jfloat q => simp [dateErrs, dateAccepted]
  | jlist l => simp [dateErrs, dateAccepted]

theorem validate_request_nil_iff (c d : JVal) :
    validate_request c d = [] ↔ requestAccepted c d = true := by
  cases c with
  | jlist pts =>
    by_cases hlen : pts.length < 4
    · have h4 : ¬ 4 ≤ pts.length := by omega
      simp [validate_request, requestAccepted, hlen, h4, coordsErrMsg]
    · have h4 : 4 ≤ pts.length := by omega
      simp [validate_request, requestAccepted, hlen, h4,
        listPointErrs_nil_iff, dateErrs_nil_iff]
  | jnull => simp [validate_request, requestAccepted, coordsErrMsg]
  | jbool b => simp [validate_request, requestAccepted, coordsErrMsg]
  | jint n => simp [validate_request, requestAccepted, coordsErrMsg]
  | jfloat q => simp [validate_request, requestAccepted, coordsErrMsg]
  | jstr s => simp [validate_request, requestAccepted, coordsErrMsg]

/-- C3: `validate_request` returns an empty error list exactly on the
accepted inputs (coordinates a list of at least 4 points, each point a
2-element list of two floats, and a date parsing as YYYY-MM-DD), and
whenever the list is non-empty the pipeline issues no query to either
external provider. -/
theorem C3_validate_iff_accepted (c d : JVal)
    (wp : WeatherQuery → WProviderResult) (ip : ImageryQuery → List Scene)
    (nm : Scene → Except String ℚ) :
    (validate_request c d = [] ↔ requestAccepted c d = true) ∧
    (validate_request c d ≠ [] →
      (get_data c d wp ip nm).weatherCalls = [] ∧
      (get_data c d wp ip nm).ndviCalls = []) := by
  refine ⟨validate_request_nil_iff c d, fun hne => ?_⟩
  simp [get_data, hne]

/-- Witness for C3 at a concrete rejected input. -/
theorem C3_validate_iff_accepted_witness :
    validate_request (JVal.jlist [ptF 10 20]) dSample ≠ [] ∧
    (get_data (JVal.jlist [ptF 10 20]) dSample wpOk ipOne nmOk).weatherCalls = [] ∧
    (get_data (JVal.jlist [ptF 10 20]) dSample wpOk ipOne nmOk).ndviCalls = [] :=
  ⟨by decide,
   (C3_validate_iff_accepted (JVal.jlist [ptF 10 20]) dSample wpOk ipOne nmOk).2
     (by decide)⟩

theorem listPointErrs_append (xs ys : List JVal) (i : Nat) :
    listPointErrs i (xs ++ ys) =
      listPointErrs i xs ++ listPointErrs (i + xs.length) ys := by
  induction xs generalizing i with
  | nil => simp [listPointErrs]
  | cons p rest ih =>
    have hidx : i + 1 + rest.length = i + (rest.length + 1) := by omega
    simp [listPointErrs, ih, hidx, List.append_assoc]

/-- C8: with at least 4 points, a point at 1-based position `pre.length + 1`
contributes exactly its own `pointErrs`; a point of two Python ints yields
the "must contain two floats" message for that position, a point of two
floats yields no error for that position. -/
theorem C8_point_float_strictness (pre post : List JVal) (p d : JVal)
    (a b : Int) (x y : ℚ)
    (hlen : 4 ≤ (pre ++ p :: post).length) :
    validate_request (.jlist (pre ++ p :: post)) d =
      listPointErrs 1 pre ++ pointErrs (pre.length + 1) p ++
      listPointErrs (pre.length + 2) post ++ dateErrs d ∧
    pointErrs (pre.length + 1) (.jlist [.jint a, .jint b]) =
      [notFloatsMsg (pre.length + 1)] ∧
    pointErrs (pre.length + 1) (.jlist [.jfloat x, .jfloat y]) = [] := by
  refine ⟨?_, by simp [pointErrs, JVal.isFloat], by simp [pointErrs, JVal.isFloat]⟩
  have hlen2 : 4 ≤ pre.length + (post.length + 1) := by simpa using hlen
  have hnl : ¬ pre.length + (post.length + 1) < 4 := by omega
  have h1 : 1 + pre.length = pre.length + 1 := by omega
  have h2 : pre.length + 1 + 1 = pre.length + 2 := by omega
  simp [validate_request, hnl, listPointErrs_append, listPointErrs, h1, h2,
    List.append_assoc]

/-- Witness for C8: the integer point `[10, 20]` at position 1 of an
otherwise float polygon is reported, the float point at position 2 is not. -/
theorem C8_point_float_strictness_witness :
    4 ≤ (([] : List JVal) ++
      JVal.jlist [.jint 10, .jint 20] :: [ptF 10 21, ptF 11 21, ptF 11 20]).length ∧
    (validate_request
        (.jlist (([] : List JVal) ++
          JVal.jlist [.jint 10, .jint 20] :: [ptF 10 21, ptF 11 21, ptF 11 20]))
        dSample =
      listPointErrs 1 [] ++ pointErrs (List.length ([] : List JVal) + 1)
        (JVal.jlist [.jint 10, .jint 20]) ++
      listPointErrs (List.length ([] : List JVal) + 2)
        [ptF 10 21, ptF 11 21, ptF 11 20] ++ dateErrs dSample ∧
    pointErrs (List.length ([] : List JVal) + 1)
        (JVal.jlist [.jint 1, .jint 2]) =
      [notFloatsMsg (List.length ([] : List JVal) + 1)] ∧
    pointErrs (List.length ([] : List JVal) + 1)
        (JVal.jlist [.jfloat 1, .jfloat 2]) = []) :=
  ⟨by decide,
   C8_point_float_strictness [] [ptF 10 21, ptF 11 21, ptF 11 20]
     (JVal.jlist [.jint 10, .jint 20]) dSample 1 2 1 2 (by decide)⟩

theorem get_data_invalid (c d : JVal)
    (wp : WeatherQuery → WProviderResult) (ip : ImageryQuery → List Scene)
    (nm : Scene → Except String ℚ)
    (hne : validate_request c d ≠ []) :
    get_data c d wp ip nm = ⟨.errorsResp (validate_request c d), [], []⟩ := by
  simp [get_data, hne]

theorem get_data_weather_fail (c d : JVal)
    (wp : WeatherQuery → WProviderResult) (ip : ImageryQuery → List Scene)
    (nm : Scene → Except String ℚ)
    (p : ℚ × ℚ) (rest : List (ℚ × ℚ)) (ds : String)
    (hc : coordsVal c = some (p :: rest)) (hd : dateVal d = some ds)
    (hval : validate_request c d = [])
    (hw : (get_open_meteo_weather p.1 p.2 ds wp).errors ≠ []) :
    get_data c d wp ip nm =
      ⟨.errorsResp (get_open_meteo_weather p.1 p.2 ds wp).errors,
       [weatherQueryOf p.1 p.2 ds], []⟩ := by
  simp [get_data, hc, hd, hval, hw]

theorem get_data_ndvi_fail (c d : JVal)
    (wp : WeatherQuery → WProviderResult) (ip : ImageryQuery → List Scene)
    (nm : Scene → Except String ℚ)
    (p : ℚ × ℚ) (rest : List (ℚ × ℚ)) (ds : String)
    (hc : coordsVal c = some (p :: rest)) (hd : dateVal d = some ds)
    (hval : validate_request c d = [])
    (hw : (get_open_meteo_weather p.1 p.2 ds wp).errors = [])
    (hn : (get_ndvi_data (p :: rest) ds ip nm).errors ≠ []) :
    get_data c d wp ip nm =
      ⟨.errorsResp (get_ndvi_data (p :: rest) ds ip nm).errors,
       [weatherQueryOf p.1 p.2 ds], [ndviQuery (p :: rest) ds]⟩ := by
  simp [get_data, hc, hd, hval, hw, hn]

theorem get_data_success (c d : JVal)
    (wp : WeatherQuery → WProviderResult) (ip : ImageryQuery → List Scene)
    (nm : Scene → Except String ℚ)
    (p : ℚ × ℚ) (rest : List (ℚ × ℚ)) (ds : String)
    (hc : coordsVal c = some (p :: rest)) (hd : dateVal d = some ds)
    (hval : validate_request c d = [])
    (hw : (get_open_meteo_weather p.1 p.2 ds wp).errors = [])
    (hn : (get_ndvi_data (p :: rest) ds ip nm).errors = []) :
    get_data c d wp ip nm =
      ⟨.successResp ((get_open_meteo_weather p.1 p.2 ds wp).data ++
                     (get_ndvi_data (p :: rest) ds ip nm).data),
       [weatherQueryOf p.1 p.2 ds], [ndviQuery (p :: rest) ds]⟩ := by
  simp [get_data, hc, hd, hval, hw, hn]

/-- C1: the pipeline runs validate, weather fetch, vegetation fetch, merge
strictly in that order and short-circuits at the first failing stage:
non-empty validation errors are answered alone with no provider call at
all; weather errors are answered alone with no imagery call; vegetation
errors are answered alone; each error response carries the error list of exactly one stage and no data; the merged success body appears exactly when both
fetches report no error. -/
theorem C1_pipeline_short_circuit (c d : JVal)
    (wp : WeatherQuery → WProviderResult) (ip : ImageryQuery → List Scene)
    (nm : Scene → Except String ℚ)
    (p : ℚ × ℚ) (rest : List (ℚ × ℚ)) (ds : String)
    (hc : coordsVal c = some (p :: rest)) (hd : dateVal d = some ds) :
    (validate_request c d ≠ [] →
       get_data c d wp ip nm =
         ⟨.errorsResp (validate_request c d), [], []⟩) ∧
    (validate_request c d = [] →
       (get_open_meteo_weather p.1 p.2 ds wp).errors ≠ [] →
       get_data c d wp ip nm =
         ⟨.errorsResp (get_open_meteo_weather p.1 p.2 ds wp).errors,
          [weatherQueryOf p.1 p.2 ds], []⟩) ∧
    (validate_request c d = [] →
       (get_open_meteo_weather p.1 p.2 ds wp).errors = [] →
       (get_ndvi_data (p :: rest) ds ip nm).errors ≠ [] →
       get_data c d wp ip nm =
         ⟨.errorsResp (get_ndvi_data (p :: rest) ds ip nm).errors,
          [weatherQueryOf p.1 p.2 ds], [ndviQuery (p :: rest) ds]⟩) ∧
    (validate_request c d = [] →
       (get_open_meteo_weather p.1 p.2 ds wp).errors = [] →
       (get_ndvi_data (p :: rest) ds ip nm).errors = [] →
       get_data c d wp ip nm =
         ⟨.successResp ((get_open_meteo_weather p.1 p.2 ds wp).data ++
                        (get_ndvi_data (p :: rest) ds ip nm).data),
          [weatherQueryOf p.1 p.2 ds], [ndviQuery (p :: rest) ds]⟩) :=
  ⟨fun hne => get_data_invalid c d wp ip nm hne,
   fun hval hw => get_data_weather_fail c d wp ip nm p rest ds hc hd hval hw,
   fun hval hw hn => get_data_ndvi_fail c d wp ip nm p rest ds hc hd hval hw hn,
   fun hval hw hn => get_data_success c d wp ip nm p rest ds hc hd hval hw hn⟩

/-- Witness for C1: a fully valid request against succeeding providers
reaches the merge stage with both provider queries issued. -/
theorem C1_pipeline_short_circuit_witness :
    coordsVal cSample = some [(10, 20), (10, 21), (11, 21), (11, 20)] ∧
    dateVal dSample = some "2024-06-01" ∧
    validate_request cSample dSample = [] ∧
    (get_open_meteo_weather 10 20 "2024-06-01" wpOk).errors = [] ∧
    (get_ndvi_data [(10, 20), (10, 21), (11, 21), (11, 20)] "2024-06-01"
      ipOne nmOk).errors = [] ∧
    get_data cSample dSample wpOk ipOne nmOk =
      ⟨.successResp
        ((get_open_meteo_weather 10 20 "2024-06-01" wpOk).data ++
         (get_ndvi_data [(10, 20), (10, 21), (11, 21), (11, 20)] "2024-06-01"
           ipOne nmOk).data),
       [weatherQueryOf 10 20 "2024-06-01"],
       [ndviQuery [(10, 20), (10, 21), (11, 21), (11, 20)] "2024-06-01"]⟩ :=
  ⟨by decide, rfl, by decide, by decide,
   by simp [get_ndvi_data, ipOne, nmOk],
   (C1_pipeline_short_circuit cSample dSample wpOk ipOne nmOk
      (10, 20) [(10, 21), (11, 21), (11, 20)] "2024-06-01"
      (by decide) rfl).2.2.2
     (by decide) (by decide) (by simp [get_ndvi_data, ipOne, nmOk])⟩

theorem take24_length_ne_zero (l : List ℚ) (h : l ≠ []) :
    (l.take 24).length ≠ 0 := by
  rw [List.length_take]
  have := List.length_pos.mpr h
  omega

/-- C2: on a success response carrying all four hourly series, the reducer
returns the arithmetic means of the first 24 entries of the temperature,
humidity and wind-speed series and the arithmetic sum (not the mean) of the
first 24 entries of the ET0 series, with no error. -/
theorem C2_weather_means (lat lon : ℚ) (date : String)
    (wp : WeatherQuery → WProviderResult) (text : String)
    (ts hs ws es : List ℚ)
    (hwp : wp (weatherQueryOf lat lon date) =
      .response 200 text (.hourly ⟨some ts, some hs, some ws, some es⟩))
    (hts : ts ≠ []) (hhs : hs ≠ []) (hws : ws ≠ []) :
    get_open_meteo_weather lat lon date wp =
      ⟨[("mean_temperature_2m_C", (ts.take 24).sum / ((ts.take 24).length : ℚ)),
        ("mean_humidity_2m_%", (hs.take 24).sum / ((hs.take 24).length : ℚ)),
        ("mean_wind_speed_10m_m_s", (ws.take 24).sum / ((ws.take 24).length : ℚ)),
        ("sum_et0_mm", (es.take 24).sum)], []⟩ := by
  simp [get_open_meteo_weather, weatherTry, weatherHandle, hwp,
    weatherCompute, hts, hhs, hws]

/-- Witness for C2 with one value per series: means 10, 20, 30 and sum 2. -/
theorem C2_weather_means_witness :
    wpOk (weatherQueryOf 10 20 "2024-06-01") =
      .response 200 "" (.hourly ⟨some [10], some [20], some [30], some [2]⟩) ∧
    ([(10 : ℚ)] ≠ [] ∧ [(20 : ℚ)] ≠ [] ∧ [(30 : ℚ)] ≠ []) ∧
    get_open_meteo_weather 10 20 "2024-06-01" wpOk =
      ⟨[("mean_temperature_2m_C",
          ([(10 : ℚ)].take 24).sum / (([(10 : ℚ)].take 24).length : ℚ)),
        ("mean_humidity_2m_%",
          ([(20 : ℚ)].take 24).sum / (([(20 : ℚ)].take 24).length : ℚ)),
        ("mean_wind_speed_10m_m_s",
          ([(30 : ℚ)].take 24).sum / (([(30 : ℚ)].take 24).length : ℚ)),
        ("sum_et0_mm", ([(2 : ℚ)].take 24).sum)], []⟩ :=
  ⟨rfl, ⟨by decide, by decide, by decide⟩,
   C2_weather_means 10 20 "2024-06-01" wpOk "" [10] [20] [30] [2]
     rfl (by decide) (by decide) (by decide)⟩

/-- C5: on a success response lacking only the ET0 series, the reducer
substitutes 24 zeros, reports `sum_et0_mm = 0` alongside the three means,
and returns no error. -/
theorem C5_missing_et0_zero (lat lon : ℚ) (date : String)
    (wp : WeatherQuery → WProviderResult) (text : String)
    (ts hs ws : List ℚ)
    (hwp : wp (weatherQueryOf lat lon date) =
      .response 200 text (.hourly ⟨some ts, some hs, some ws, none⟩))
    (hts : ts ≠ []) (hhs : hs ≠ []) (hws : ws ≠ []) :
    get_open_meteo_weather lat lon date wp =
      ⟨[("mean_temperature_2m_C", (ts.take 24).sum / ((ts.take 24).length : ℚ)),
        ("mean_humidity_2m_%", (hs.take 24).sum / ((hs.take 24).length : ℚ)),
        ("mean_wind_speed_10m_m_s", (ws.take 24).sum / ((ws.take 24).length : ℚ)),
        ("sum_et0_mm", 0)], []⟩ := by
  simp [get_open_meteo_weather, weatherTry, weatherHandle, hwp,
    weatherCompute, hts, hhs, hws]

/-- Witness for C5 at the sample ET0-less provider. -/
theorem C5_missing_et0_zero_witness :
    wpNoEt0 (weatherQueryOf 10 20 "2024-06-01") =
      .response 200 "" (.hourly ⟨some [10], some [20], some [30], none⟩) ∧
    get_open_meteo_weather 10 20 "2024-06-01" wpNoEt0 =
      ⟨[("mean_temperature_2m_C",
          ([(10 : ℚ)].take 24).sum / (([(10 : ℚ)].take 24).length : ℚ)),
        ("mean_humidity_2m_%",
          ([(20 : ℚ)].take 24).sum / (([(20 : ℚ)].take 24).length : ℚ)),
        ("mean_wind_speed_10m_m_s",
          ([(30 : ℚ)].take 24).sum / (([(30 : ℚ)].take 24).length : ℚ)),
        ("sum_et0_mm", 0)], []⟩ :=
  ⟨rfl,
   C5_missing_et0_zero 10 20 "2024-06-01" wpNoEt0 "" [10] [20] [30]
     rfl (by decide) (by decide) (by decide)⟩

/-- C10: a success response whose required series are present but where at
least one of them is empty makes the Python reducer hit a division by zero,
which is caught: empty data and exactly the single prefixed error come
back, so the mean computations only ever complete on non-empty series. -/
theorem C10_empty_series_caught (lat lon : ℚ) (date : String)
    (wp : WeatherQuery → WProviderResult) (text : String)
    (ts hs ws : List ℚ) (e0 : Option (List ℚ))
    (hwp : wp (weatherQueryOf lat lon date) =
      .response 200 text (.hourly ⟨some ts, some hs, some ws, e0⟩))
    (hzero : ts = [] ∨ hs = [] ∨ ws = []) :
    get_open_meteo_weather lat lon date wp =
      ⟨[], ["get_open_meteo_weather: division by zero"]⟩ := by
  rcases hzero with h | h | h <;> subst h <;>
    simp [get_open_meteo_weather, weatherTry, weatherHandle, hwp,
      weatherCompute]

/-- Witness for C10 at the all-empty-series provider. -/
theorem C10_empty_series_caught_witness :
    wpEmptySeries (weatherQueryOf 10 20 "2024-06-01") =
      .response 200 "" (.hourly ⟨some [], some [], some [], none⟩) ∧
    get_open_meteo_weather 10 20 "2024-06-01" wpEmptySeries =
      ⟨[], ["get_open_meteo_weather: division by zero"]⟩ :=
  ⟨rfl,
   C10_empty_series_caught 10 20 "2024-06-01" wpEmptySeries "" [] [] [] none
     rfl (Or.inl rfl)⟩

theorem weatherHandle_failure_error (r : WProviderResult)
    (h : weatherFailureCase r) : ∃ e, weatherHandle r = .error e := by
  cases r with
  | transportError msg => exact ⟨msg, rfl⟩
  | response sc text body =>
    by_cases hsc : sc = 200
    · subst hsc
      cases body with
      | badJson msg => exact ⟨msg, by simp [weatherHandle]⟩
      | noHourly => exact ⟨"hourly", by simp [weatherHandle]⟩
      | hourly hh =>
        simp [weatherFailureCase] at h
        rcases h with h | h | h
        · exact ⟨"temperature_2m", by simp [weatherHandle, weatherCompute, h]⟩
        · cases ht : hh.temperature_2m with
          | none =>
            exact ⟨"temperature_2m", by simp [weatherHandle, weatherCompute, ht]⟩
          | some ts =>
            exact ⟨"relativehumidity_2m",
              by simp [weatherHandle, weatherCompute, ht, h]⟩
        · cases ht : hh.temperature_2m with
          | none =>
            exact ⟨"temperature_2m", by simp [weatherHandle, weatherCompute, ht]⟩
          | some ts =>
            cases hhum : hh.relativehumidity_2m with
            | none =>
              exact ⟨"relativehumidity_2m",
                by simp [weatherHandle, weatherCompute, ht, hhum]⟩
            | some hs =>
              exact ⟨"wind_speed_10m",
                by simp [weatherHandle, weatherCompute, ht, hhum, h]⟩
    · exact ⟨"Failed to fetch data: " ++ text, by simp [weatherHandle, hsc]⟩

/-- C6: every failing transport outcome — a transport exception, a non-200
status, an undecodable body, or a body missing the `hourly` object or a
required series — makes the weather reducer return an empty data mapping
and exactly one error string carrying the `get_open_meteo_weather` prefix. -/
theorem C6_weather_failure_single_error (lat lon : ℚ) (date : String)
    (wp : WeatherQuery → WProviderResult)
    (h : weatherFailureCase (wp (weatherQueryOf lat lon date))) :
    (get_open_meteo_weather lat lon date wp).data = [] ∧
    ∃ s, (get_open_meteo_weather lat lon date wp).errors =
      ["get_open_meteo_weather: " ++ s] := by
  obtain ⟨e, he⟩ := weatherHandle_failure_error _ h
  simp [get_open_meteo_weather, weatherTry, he]

/-- Witness for C6 at the HTTP-500 provider. -/
theorem C6_weather_failure_single_error_witness :
    weatherFailureCase (wpBad (weatherQueryOf 10 20 "2024-06-01")) ∧
    ((get_open_meteo_weather 10 20 "2024-06-01" wpBad).data = [] ∧
     ∃ s, (get_open_meteo_weather 10 20 "2024-06-01" wpBad).errors =
       ["get_open_meteo_weather: " ++ s]) :=
  ⟨Or.inl (by decide),
   C6_weather_failure_single_error 10 20 "2024-06-01" wpBad
     (Or.inl (by decide))⟩

theorem cloudLE_trans (a b c : Scene) (hab : cloudLE a b) (hbc : cloudLE b c) :
    cloudLE a c := by
  simp [cloudLE] at hab hbc ⊢
  exact le_trans hab hbc

theorem cloudLE_total (a b : Scene) : cloudLE a b || cloudLE b a := by
  simp [cloudLE]
  exact le_total _ _

theorem mergeSort_head_min (l : List Scene) (s : Scene)
    (h : (l.mergeSort cloudLE).head? = some s) :
    s ∈ l ∧ ∀ t ∈ l, s.cloudyPixelPercentage ≤ t.cloudyPixelPercentage := by
  have hsorted := List.sorted_mergeSort cloudLE_trans cloudLE_total l
  cases hl : l.mergeSort cloudLE with
  | nil => rw [hl] at h; simp at h
  | cons a tail =>
    rw [hl] at h
    simp at h
    have hmem : s ∈ l.mergeSort cloudLE := by
      rw [hl, ← h]; exact List.mem_cons_self _ _
    refine ⟨List.mem_mergeSort.mp hmem, fun t ht => ?_⟩
    have ht2 : t ∈ l.mergeSort cloudLE := List.mem_mergeSort.mpr ht
    rw [hl] at ht2
    rcases List.mem_cons.mp ht2 with heq | htail
    · rw [heq, h]
    · rw [hl] at hsorted
      have hp := (List.pairwise_cons.mp hsorted).1 t htail
      rw [h] at hp
      simpa [cloudLE] using hp

/-- C7: the vegetation reducer queries the imagery provider over the window
from one day before to one day after the requested date and over the
request polygon; the scene it uses is the head of the matching scenes
sorted by ascending cloud-cover percentage, which is a least-cloudy
matching scene; and when no scene matches it returns an empty data mapping
and exactly one error string carrying the `get_ndvi_data` prefix. -/
theorem C7_ndvi_window_and_selection (coords : List (ℚ × ℚ)) (date : String)
    (ip : ImageryQuery → List Scene) (nm : Scene → Except String ℚ) :
    (ndviQuery coords date).startDate = (eeDate date).advance (-1) ∧
    (ndviQuery coords date).endDate = (eeDate date).advance 1 ∧
    (ndviQuery coords date).polygon = coords ∧
    (ip (ndviQuery coords date) = [] →
      get_ndvi_data coords date ip nm =
        ⟨[], ["get_ndvi_data: " ++ emptyCollectionMsg]⟩) ∧
    (∀ s, ((ip (ndviQuery coords date)).mergeSort cloudLE).head? = some s →
      s ∈ ip (ndviQuery coords date) ∧
      (∀ t ∈ ip (ndviQuery coords date),
        s.cloudyPixelPercentage ≤ t.cloudyPixelPercentage) ∧
      ∀ v, nm s = .ok v →
        get_ndvi_data coords date ip nm = ⟨[("ndvi_mean", v)], []⟩) := by
  refine ⟨rfl, rfl, rfl, fun hemp => ?_, fun s hs => ?_⟩
  · simp [get_ndvi_data, hemp]
  · obtain ⟨hmem, hmin⟩ := mergeSort_head_min _ s hs
    exact ⟨hmem, hmin, fun v hv => by simp [get_ndvi_data, hs, hv]⟩

/-- Witness for C7: the empty-collection case at a concrete polygon, plus
the concrete window bounds. -/
theorem C7_ndvi_window_and_selection_witness :
    ipNone (ndviQuery [(10, 20), (10, 21), (11, 21), (11, 20)] "2024-06-01") = [] ∧
    get_ndvi_data [(10, 20), (10, 21), (11, 21), (11, 20)] "2024-06-01"
        ipNone nmOk =
      ⟨[], ["get_ndvi_data: " ++ emptyCollectionMsg]⟩ ∧
    (ndviQuery [(10, 20), (10, 21), (11, 21), (11, 20)] "2024-06-01").startDate =
      (eeDate "2024-06-01").advance (-1) ∧
    (ndviQuery [(10, 20), (10, 21), (11, 21), (11, 20)] "2024-06-01").endDate =
      (eeDate "2024-06-01").advance 1 :=
  ⟨rfl,
   (C7_ndvi_window_and_selection [(10, 20), (10, 21), (11, 21), (11, 20)]
      "2024-06-01" ipNone nmOk).2.2.2.1 rfl,
   (C7_ndvi_window_and_selection [(10, 20), (10, 21), (11, 21), (11, 20)]
      "2024-06-01" ipNone nmOk).1,
   (C7_ndvi_window_and_selection [(10, 20), (10, 21), (11, 21), (11, 20)]
      "2024-06-01" ipNone nmOk).2.1⟩

/-- C4: when the first polygon point carries the raw values
`[lon0, lat0]` (in polygon order, longitude first), the pipeline issues
exactly the weather query `weatherQueryOf lon0 lat0`, whose `latitude`
field is `lon0` and whose `longitude` field is `lat0` — the positional
call `get_open_meteo_weather(coordinates[0][0], coordinates[0][1], date)`
binds the first value of the point to the parameter named `lat` — and the
response depends on the weather provider only through that query. -/
theorem C4_weather_latlon_order (d : JVal) (lon0 lat0 : ℚ)
    (rawRest : List JVal) (restCs : List (ℚ × ℚ)) (ds : String)
    (wp wp' : WeatherQuery → WProviderResult) (ip : ImageryQuery → List Scene)
    (nm : Scene → Except String ℚ)
    (hrest : coordsList rawRest = some restCs)
    (hd : dateVal d = some ds)
    (hval : validate_request
      (.jlist (.jlist [.jfloat lon0, .jfloat lat0] :: rawRest)) d = []) :
    (get_data (.jlist (.jlist [.jfloat lon0, .jfloat lat0] :: rawRest))
        d wp ip nm).weatherCalls = [weatherQueryOf lon0 lat0 ds] ∧
    (weatherQueryOf lon0 lat0 ds).latitude = lon0 ∧
    (weatherQueryOf lon0 lat0 ds).longitude = lat0 ∧
    (wp (weatherQueryOf lon0 lat0 ds) = wp' (weatherQueryOf lon0 lat0 ds) →
      get_data (.jlist (.jlist [.jfloat lon0, .jfloat lat0] :: rawRest))
        d wp ip nm =
      get_data (.jlist (.jlist [.jfloat lon0, .jfloat lat0] :: rawRest))
        d wp' ip nm) := by
  have hc : coordsVal
      (JVal.jlist (JVal.jlist [JVal.jfloat lon0, JVal.jfloat lat0] :: rawRest)) =
      some ((lon0, lat0) :: restCs) := by
    simp [coordsVal, coordsList, pointVal, floatVal, hrest]
  refine ⟨?_, rfl, rfl, fun hagree => ?_⟩
  · by_cases hw : (get_open_meteo_weather lon0 lat0 ds wp).errors = []
    · by_cases hn : (get_ndvi_data ((lon0, lat0) :: restCs) ds ip nm).errors = []
      · rw [get_data_success _ _ _ _ _ (lon0, lat0) restCs ds hc hd hval hw hn]
      · rw [get_data_ndvi_fail _ _ _ _ _ (lon0, lat0) restCs ds hc hd hval hw hn]
    · rw [get_data_weather_fail _ _ _ _ _ (lon0, lat0) restCs ds hc hd hval hw]
  · simp only [get_data, hval, hc, hd, get_open_meteo_weather, weatherTry]
    rw [hagree]

/-- Witness for C4: the sample request issues the query whose `latitude`
field holds the first value of the first point. -/
theorem C4_weather_latlon_order_witness :
    coordsList [ptF 10 21, ptF 11 21, ptF 11 20] =
      some [(10, 21), (11, 21), (11, 20)] ∧
    dateVal dSample = some "2024-06-01" ∧
    validate_request
      (.jlist (.jlist [.jfloat 10, .jfloat 20] ::
        [ptF 10 21, ptF 11 21, ptF 11 20])) dSample = [] ∧
    (get_data (.jlist (.jlist [.jfloat 10, .jfloat 20] ::
        [ptF 10 21, ptF 11 21, ptF 11 20])) dSample wpOk ipOne nmOk).weatherCalls =
      [weatherQueryOf 10 20 "2024-06-01"] ∧
    (weatherQueryOf 10 20 "2024-06-01").latitude = 10 ∧
    (weatherQueryOf 10 20 "2024-06-01").longitude = 20 :=
  ⟨by decide, rfl, by decide,
   (C4_weather_latlon_order dSample 10 20 [ptF 10 21, ptF 11 21, ptF 11 20]
      [(10, 21), (11, 21), (11, 20)] "2024-06-01" wpOk wpOk ipOne nmOk
      (by decide) rfl (by decide)).1,
   rfl, rfl⟩

theorem weatherCompute_ok_shape (h : Hourly) (dta : List (String × ℚ))
    (hok : weatherCompute h = .ok dta) :
    ∃ t hu w e, dta =
      [("mean_temperature_2m_C", t), ("mean_humidity_2m_%", hu),
       ("mean_wind_speed_10m_m_s", w), ("sum_et0_mm", e)] := by
  cases ht : h.temperature_2m with
  | none => simp [weatherCompute, ht] at hok
  | some ts =>
    cases hh : h.relativehumidity_2m with
    | none => simp [weatherCompute, ht, hh] at hok
    | some hs =>
      cases hw : h.wind_speed_10m with
      | none => simp [weatherCompute, ht, hh, hw] at hok
      | some ws =>
        simp [weatherCompute, ht, hh, hw] at hok
        split at hok
        · simp at hok
        split at hok
        · simp at hok
        split at hok
        · simp at hok
        · injection hok with h2
          exact ⟨_, _, _, _, h2.symm⟩

theorem weather_ok_data_shape (lat lon : ℚ) (date : String)
    (wp : WeatherQuery → WProviderResult)
    (herr : (get_open_meteo_weather lat lon date wp).errors = []) :
    ∃ t hu w e, (get_open_meteo_weather lat lon date wp).data =
      [("mean_temperature_2m_C", t), ("mean_humidity_2m_%", hu),
       ("mean_wind_speed_10m_m_s", w), ("sum_et0_mm", e)] := by
  cases hr : weatherTry lat lon date wp with
  | error e =>
    rw [get_open_meteo_weather, hr] at herr
    simp at herr
  | ok dta =>
    rw [get_open_meteo_weather, hr]
    rw [weatherTry] at hr
    cases hpr : wp (weatherQueryOf lat lon date) with
    | transportError msg => rw [hpr] at hr; simp [weatherHandle] at hr
    | response sc text body =>
      rw [hpr] at hr
      by_cases hsc : sc = 200
      · subst hsc
        cases body with
        | badJson msg => simp [weatherHandle] at hr
        | noHourly => simp [weatherHandle] at hr
        | hourly hh =>
          simp [weatherHandle] at hr
          exact weatherCompute_ok_shape hh dta hr
      · simp [weatherHandle, hsc] at hr

theorem ndvi_ok_data_shape (coords : List (ℚ × ℚ)) (date : String)
    (ip : ImageryQuery → List Scene) (nm : Scene → Except String ℚ)
    (herr : (get_ndvi_data coords date ip nm).errors = []) :
    ∃ v, (get_ndvi_data coords date ip nm).data = [("ndvi_mean", v)] := by
  cases hh : ((ip (ndviQuery coords date)).mergeSort cloudLE).head? with
  | none => simp [get_ndvi_data, hh] at herr
  | some s =>
    cases hnm : nm s with
    | error msg => simp [get_ndvi_data, hh, hnm] at herr
    | ok v => exact ⟨v, by simp [get_ndvi_data, hh, hnm]⟩

/-- C9: when validation passes and both fetch stages report no error, the
response is the success body whose data mapping is the weather summary
followed by the vegetation summary — exactly the five scalar fields
mean_temperature_2m_C, mean_humidity_2m_%, mean_wind_speed_10m_m_s,
sum_et0_mm and ndvi_mean. -/
theorem C9_success_body (c d : JVal)
    (wp : WeatherQuery → WProviderResult) (ip : ImageryQuery → List Scene)
    (nm : Scene → Except String ℚ)
    (p : ℚ × ℚ) (rest : List (ℚ × ℚ)) (ds : String)
    (hc : coordsVal c = some (p :: rest)) (hd : dateVal d = some ds)
    (hval : validate_request c d = [])
    (hw : (get_open_meteo_weather p.1 p.2 ds wp).errors = [])
    (hn : (get_ndvi_data (p :: rest) ds ip nm).errors = []) :
    (get_data c d wp ip nm).resp =
      .successResp ((get_open_meteo_weather p.1 p.2 ds wp).data ++
                    (get_ndvi_data (p :: rest) ds ip nm).data) ∧
    ∃ t hu w e v, (get_data c d wp ip nm).resp =
      .successResp
        [("mean_temperature_2m_C", t), ("mean_humidity_2m_%", hu),
         ("mean_wind_speed_10m_m_s", w), ("sum_et0_mm", e),
         ("ndvi_mean", v)] := by
  have heq := get_data_success c d wp ip nm p rest ds hc hd hval hw hn
  obtain ⟨t, hu, w, e, hwd⟩ := weather_ok_data_shape p.1 p.2 ds wp hw
  obtain ⟨v, hnd⟩ := ndvi_ok_data_shape (p :: rest) ds ip nm hn
  rw [heq]
  exact ⟨rfl, t, hu, w, e, v, by simp [hwd, hnd]⟩

/-- Witness for C9: the sample request against succeeding providers yields
the five-field success body. -/
theorem C9_success_body_witness :
    coordsVal cSample = some [(10, 20), (10, 21), (11, 21), (11, 20)] ∧
    validate_request cSample dSample = [] ∧
    (get_open_meteo_weather 10 20 "2024-06-01" wpOk).errors = [] ∧
    (get_ndvi_data [(10, 20), (10, 21), (11, 21), (11, 20)] "2024-06-01"
      ipOne nmOk).errors = [] ∧
    ∃ t hu w e v, (get_data cSample dSample wpOk ipOne nmOk).resp =
      .successResp
        [("mean_temperature_2m_C", t), ("mean_humidity_2m_%", hu),
         ("mean_wind_speed_10m_m_s", w), ("sum_et0_mm", e),
         ("ndvi_mean", v)] :=
  ⟨by decide, by decide, by decide,
   by simp [get_ndvi_data, ipOne, nmOk],
   (C9_success_body cSample dSample wpOk ipOne nmOk
      (10, 20) [(10, 21), (11, 21), (11, 20)] "2024-06-01"
      (by decide) rfl (by decide)
      (by decide) (by simp [get_ndvi_data, ipOne, nmOk])).2⟩
